import Mathlib

/-
Verification development for `scripts/load_schema.py`.

The script is a one-shot utility: it reads two environment variables
(DIRECTUS_URL with a default, DIRECTUS_TOKEN required), issues a single
GET request to `{base}/server/specs/oas` via `urllib.request.urlopen`
with a 30 second timeout, parses the body as JSON, extracts
`full_spec.get("components", {}).get("schemas", {})`, and writes that
value to `reference/schema.json` with `json.dump(..., indent=2,
ensure_ascii=False)`.  `__main__` maps the boolean result to the process
exit status (0 on True, 1 on False).

The embedding below models:
  - JSON values (as produced by `json.loads`) as the inductive `Json`;
  - Python's `json.dump` with `indent=2` and `ensure_ascii=False` as `dumps`;
  - `urlopen` as a function of an abstract network event: per urllib's
    `HTTPErrorProcessor`, a final response (after urllib's internal
    redirect handling) with a status outside 200..299 raises `HTTPError`;
    transport-level failures (DNS, refused connection, the elapsed
    timeout wrapped by `AbstractHTTPHandler.do_open`, TLS) raise
    `URLError`; any other exception is modelled as a raw Python
    exception with its type name and message;
  - the response body by the outcome of `json.loads` on its UTF-8
    decoding (a JSON value, or a decode error);
  - the filesystem by the content of `reference/schema.json` plus an
    optional injected failure of `mkdir`, of `open`, or of the write
    itself; `open(.., "w")` truncates the file before writing, so a
    failure during the write leaves the file truncated;
  - console output as the list of strings passed to `print` (a `"\n"`
    embedded in a single `print` argument is kept inside that element).
-/

namespace LoadSchema

/-- JSON values as returned by Python's `json.loads`: `None`, `bool`,
`int` numbers, `str`, `list`, and `dict` with string keys (insertion
order preserved, keys unique after parsing). -/
inductive Json where
  | null : Json
  | bool (b : Bool) : Json
  | num (n : Int) : Json
  | str (s : String) : Json
  | arr (elems : List Json) : Json
  | obj (fields : List (String × Json)) : Json

/-- The Python type name of a JSON value, as `type(e).__name__` shows it. -/
def pyTypeName : Json → String
  | Json.null => "NoneType"
  | Json.bool _ => "bool"
  | Json.num _ => "int"
  | Json.str _ => "str"
  | Json.arr _ => "list"
  | Json.obj _ => "dict"

/-- Python truthiness of a JSON value (`if not schema_data`). -/
def truthy : Json → Bool
  | Json.null => false
  | Json.bool b => b
  | Json.num n => n != 0
  | Json.str s => !s.isEmpty
  | Json.arr xs => !xs.isEmpty
  | Json.obj fs => !fs.isEmpty

/-- One hexadecimal digit, lowercase (for `\u00XX` escapes). -/
def hexDigitChar (n : Nat) : String :=
  String.singleton (Char.ofNat (if n < 10 then 48 + n else 87 + n))

/-- Escape of one character inside a JSON string literal as Python's
`json.dump` with `ensure_ascii=False` performs it: only `"`, `\` and
control characters below 0x20 are escaped; everything else (including
non-ASCII) is emitted unchanged. -/
def jsonEscapeChar (c : Char) : String :=
  if c = '"' then "\\\""
  else if c = '\\' then "\\\\"
  else if c = '\n' then "\\n"
  else if c = '\t' then "\\t"
  else if c = '\r' then "\\r"
  else if c.toNat = 8 then "\\b"
  else if c.toNat = 12 then "\\f"
  else if c.toNat < 32 then "\\u00" ++ hexDigitChar (c.toNat / 16) ++ hexDigitChar (c.toNat % 16)
  else String.singleton c

/-- A JSON string literal with quotes, escaped as `json.dump` does. -/
def jsonEscapeString (s : String) : String :=
  "\"" ++ String.join (s.data.map jsonEscapeChar) ++ "\""

/-- Indentation: `indent=2` produces `2 * level` spaces before each item. -/
def pad (lvl : Nat) : String := String.mk (List.replicate (2 * lvl) ' ')

mutual
/-- Serialization of a JSON value exactly as Python's
`json.dump(value, f, indent=2, ensure_ascii=False)` writes it: the
default separators with an indent are `(",", ": ")`, empty containers
print as `[]` and as an empty pair of braces, and each nested level adds
two spaces. -/
def dumps (lvl : Nat) : Json → String
  | Json.null => "null"
  | Json.bool true => "true"
  | Json.bool false => "false"
  | Json.num n => toString n
  | Json.str s => jsonEscapeString s
  | Json.arr [] => "[]"
  | Json.arr (x :: xs) => "[\n" ++ dumpsList (lvl + 1) (x :: xs) ++ "\n" ++ pad lvl ++ "]"
  | Json.obj [] => "\x7b\x7d"
  | Json.obj (f :: fs) => "\x7b\n" ++ dumpsFields (lvl + 1) (f :: fs) ++ "\n" ++ pad lvl ++ "\x7d"
/-- Serialization of the items of a non-empty JSON array, one per line. -/
def dumpsList (lvl : Nat) : List Json → String
  | [] => ""
  | [x] => pad lvl ++ dumps lvl x
  | x :: y :: ys => pad lvl ++ dumps lvl x ++ ",\n" ++ dumpsList lvl (y :: ys)
/-- Serialization of the fields of a non-empty JSON object, one per line. -/
def dumpsFields (lvl : Nat) : List (String × Json) → String
  | [] => ""
  | [(k, v)] => pad lvl ++ jsonEscapeString k ++ ": " ++ dumps lvl v
  | (k, v) :: f :: fs =>
      pad lvl ++ jsonEscapeString k ++ ": " ++ dumps lvl v ++ ",\n" ++ dumpsFields lvl (f :: fs)
end

/-- Python exceptions relevant to the script, in the order the
`except` clauses of `load_schema` test them: `HTTPError` (a subclass of
`URLError`, caught first), `URLError`, and any other exception carried
as its type name and message. -/
inductive PyError where
  | httpError (code : Nat) (reason : String) : PyError
  | urlError (reason : String) : PyError
  | pyExc (name : String) (msg : String) : PyError

/-- Python's `len(x)`: defined for `str`, `list` and `dict`; any other
value raises `TypeError: object of type '<name>' has no len()`. -/
def pyLen (j : Json) : Except PyError Nat :=
  match j with
  | Json.str s => Except.ok s.length
  | Json.arr xs => Except.ok xs.length
  | Json.obj fs => Except.ok fs.length
  | j => Except.error (PyError.pyExc "TypeError"
      ("object of type \x27" ++ pyTypeName j ++ "\x27 has no len()"))

/-- Python's `value.get(key, default)`: a dictionary lookup falling
back to the default, while any non-dict value raises
`AttributeError: '<name>' object has no attribute 'get'`. -/
def dictGet (j : Json) (key : String) (default : Json) : Except PyError Json :=
  match j with
  | Json.obj fields => Except.ok ((fields.lookup key).getD default)
  | j => Except.error (PyError.pyExc "AttributeError"
      ("\x27" ++ pyTypeName j ++ "\x27 object has no attribute \x27get\x27"))

/-- Line 71 of the script:
`full_spec.get("components", \x7b\x7d).get("schemas", \x7b\x7d)`. -/
def extract (full_spec : Json) : Except PyError Json :=
  match dictGet full_spec "components" (Json.obj []) with
  | Except.error e => Except.error e
  | Except.ok components => dictGet components "schemas" (Json.obj [])

/-- The UTF-8 decoded response body, represented by the outcome of
`json.loads` on it: either the parsed JSON document, or a decode
failure with the `JSONDecodeError` message. -/
inductive Body where
  | jsonDoc (doc : Json) : Body
  | invalid (msg : String) : Body

/-- What the network does for the single request the script issues:
either a final response (status, reason phrase, body) is delivered to
`urlopen` after urllib's internal redirect handling, or the transport
fails (`URLError`), or some other exception escapes the call. -/
inductive NetEvent where
  | response (status : Nat) (reason : String) (body : Body) : NetEvent
  | urlError (reason : String) : NetEvent
  | otherError (name : String) (msg : String) : NetEvent

/-- Model of `urlopen(request, timeout=30)` combined with reading the body:
urllib's `HTTPErrorProcessor` raises `HTTPError` for every final status
outside 200..299, so the call returns normally only for a 2xx status;
transport failures surface as `URLError`. -/
def urlopen (net : NetEvent) : Except PyError (Nat × Body) :=
  match net with
  | NetEvent.response status reason body =>
      if 200 ≤ status ∧ status < 300 then Except.ok (status, body)
      else Except.error (PyError.httpError status reason)
  | NetEvent.urlError reason => Except.error (PyError.urlError reason)
  | NetEvent.otherError name msg => Except.error (PyError.pyExc name msg)

/-- An injected filesystem failure on the output path: `mkdir` raising,
`open` raising, or the write itself raising after `open(.., "w")` has
already truncated the file. -/
inductive FsFailure where
  | mkdirFail (name : String) (msg : String) : FsFailure
  | openFail (name : String) (msg : String) : FsFailure
  | writeFail (name : String) (msg : String) : FsFailure

/-- The external state a run of the script observes: the two
environment variables, the behavior of the network for the one request,
an optional filesystem fault, and the prior content of
`reference/schema.json` (`none` when the file does not exist). -/
structure World where
  directus_url : Option String
  directus_token : Option String
  net : NetEvent
  fsError : Option FsFailure
  schemaFile : Option String

/-- The default base address (line 28 of the script). -/
def defaultBaseUrl : String := "https://directus.bounteer.com"

/-- The fixed sub-path joined to the base address (line 53). -/
def oasPath : String := "/server/specs/oas"

/-- The output path `reference/schema.json` relative to the project
root (lines 78 and 82; the script prints it resolved against its own
location). -/
def schemaFilePath : String := "reference/schema.json"

/-- The line of 60 equal signs used as a banner separator. -/
def sep60 : String := String.mk (List.replicate 60 '=')

/-- The print calls of lines 32..49: the remediation guidance shown
when DIRECTUS_TOKEN is unset or empty. -/
def missingTokenGuidance : List String :=
  [ "❌ ERROR: DIRECTUS_TOKEN environment variable is not set"
  , "\n📋 TODO - Directus Configuration Required:"
  , sep60
  , "1. Create a static API token in your Directus instance:"
  , "   - Go to: https://directus.bounteer.com/admin/settings/access-tokens"
  , "   - Click \x27Create Token\x27"
  , "   - Name: \x27Schema Export\x27 (or similar)"
  , "   - Set appropriate permissions:"
  , "     • Read access to system collections"
  , "     • Schema read permissions"
  , "   - Copy the generated token"
  , ""
  , "2. Set the token as an environment variable:"
  , "   export DIRECTUS_TOKEN=\x27your-token-here\x27"
  , ""
  , "3. Re-run this script:"
  , "   python scripts/load_schema.py"
  , sep60 ]

/-- The print calls of lines 94..106: guidance shown for a 401. -/
def authGuidance : List String :=
  [ "\n📋 TODO - Authentication Error:"
  , sep60
  , "Your DIRECTUS_TOKEN appears to be invalid or expired."
  , "Please check the following:"
  , "1. Token is correctly copied (no extra spaces)"
  , "2. Token has not expired"
  , "3. Token has appropriate permissions:"
  , "   - System collections read access"
  , "   - Schema read permissions"
  , ""
  , "Generate a new token at:"
  , "https://directus.bounteer.com/admin/settings/access-tokens"
  , sep60 ]

/-- The print calls of lines 108..114: guidance shown for a 403. -/
def permGuidance : List String :=
  [ "\n📋 TODO - Permission Error:"
  , sep60
  , "Your token does not have sufficient permissions."
  , "Please update the token permissions to include:"
  , "- System collections: Read access"
  , "- Schema endpoint: Read access"
  , sep60 ]

/-- The print calls of lines 119..127: connectivity troubleshooting
shown for a `URLError`. -/
def connGuidance : List String :=
  [ "\n📋 TODO - Connection Issue:"
  , sep60
  , "Unable to connect to Directus instance."
  , "Please check:"
  , "1. Directus URL is correct: https://directus.bounteer.com"
  , "2. Directus instance is running and accessible"
  , "3. Your network connection is working"
  , "4. No firewall is blocking the connection"
  , sep60 ]

/-- Line 54: `f"🔍 Fetching schema from: \x7bschema_url\x7d"`. -/
def fetchingLine (u : String) : String := "🔍 Fetching schema from: " ++ u

/-- Line 65: the message for a 2xx status other than 200. -/
def statusLine (s : Nat) : String := "❌ ERROR: Received status code " ++ toString s

/-- Line 74: the message for an empty (falsy) extracted mapping. -/
def emptySchemaLine : String := "❌ ERROR: No schemas found in the OpenAPI specification"

/-- Line 86: the success confirmation with the output path. -/
def savedLine : String := "✅ Schema successfully saved to: " ++ schemaFilePath

/-- Line 87: the schema count confirmation. -/
def countLine (n : Nat) : String := "📊 Schema contains " ++ toString n ++ " schemas"

/-- Line 92: `f"❌ HTTP Error: \x7be.code\x7d - \x7be.reason\x7d"`. -/
def httpErrorLine (code : Nat) (reason : String) : String :=
  "❌ HTTP Error: " ++ toString code ++ " - " ++ reason

/-- Line 118: `f"❌ Connection Error: \x7be.reason\x7d"`. -/
def connErrorLine (reason : String) : String := "❌ Connection Error: " ++ reason

/-- Line 131: `f"❌ Unexpected Error: \x7btype(e).__name__\x7d: \x7be\x7d"`. -/
def unexpectedLine (name msg : String) : String :=
  "❌ Unexpected Error: " ++ name ++ ": " ++ msg

/-- Effects and result of the `try` block of lines 56..89: the lines
printed inside the block, the resulting file content, whether the
output file was opened for writing (which truncates it), the
successfully extracted truthy value when one was reached, and the
block's outcome (a normal return of True or False, or a raised
exception to be classified by the `except` clauses). -/
structure TryOut where
  lines : List String
  file : Option String
  openedForWrite : Bool
  extracted : Option Json
  res : Except PyError Bool

/-- The `try` block of lines 56..89, step by step: call `urlopen`,
reject a 2xx status other than 200, parse the body, extract
`components` / `schemas`, reject a falsy result, create the directory,
open and write the file, then print the confirmation and the count
(where `len` of a value without a length raises after the file was
already written). -/
def tryBody (net : NetEvent) (fsE : Option FsFailure) (prior : Option String) : TryOut :=
  match urlopen net with
  | Except.error err => ⟨[], prior, false, none, Except.error err⟩
  | Except.ok (status, body) =>
    if status = 200 then
      match body with
      | Body.invalid msg =>
          ⟨[], prior, false, none, Except.error (PyError.pyExc "JSONDecodeError" msg)⟩
      | Body.jsonDoc doc =>
        match extract doc with
        | Except.error err => ⟨[], prior, false, none, Except.error err⟩
        | Except.ok schema_data =>
          if truthy schema_data then
            match fsE with
            | some (FsFailure.mkdirFail n m) =>
                ⟨[], prior, false, some schema_data, Except.error (PyError.pyExc n m)⟩
            | some (FsFailure.openFail n m) =>
                ⟨[], prior, false, some schema_data, Except.error (PyError.pyExc n m)⟩
            | some (FsFailure.writeFail n m) =>
                ⟨[], some "", true, some schema_data, Except.error (PyError.pyExc n m)⟩
            | none =>
              match pyLen schema_data with
              | Except.error err =>
                  ⟨[savedLine], some (dumps 0 schema_data), true, some schema_data,
                    Except.error err⟩
              | Except.ok n =>
                  ⟨[savedLine, countLine n], some (dumps 0 schema_data), true,
                    some schema_data, Except.ok true⟩
          else
            ⟨[emptySchemaLine], prior, false, some schema_data, Except.ok false⟩
    else
      ⟨[statusLine status], prior, false, none, Except.ok false⟩

/-- The observable result of one call of `load_schema`: its boolean
return value, whether `urlopen` was invoked and with which URL, the
lines printed by the function, the final content of
`reference/schema.json`, and the write instrumentation of `TryOut`. -/
structure RunResult where
  success : Bool
  networkCalled : Bool
  requestUrl : Option String
  output : List String
  schemaFile : Option String
  openedForWrite : Bool
  extracted : Option Json

/-- The early return of lines 31..50: guidance printed, False
returned, nothing else touched. -/
def noTokenResult (w : World) : RunResult :=
  { success := false
  , networkCalled := false
  , requestUrl := none
  , output := missingTokenGuidance
  , schemaFile := w.schemaFile
  , openedForWrite := false
  , extracted := none }

/-- The function `load_schema` (lines 24..132): configuration, the
`try` block, and the `except HTTPError` / `except URLError` /
`except Exception` clauses, each printing its diagnostic block and
returning False. -/
def load_schema (w : World) : RunResult :=
  let directus_url := w.directus_url.getD defaultBaseUrl
  match w.directus_token with
  | none => noTokenResult w
  | some directus_token =>
    if directus_token = "" then noTokenResult w
    else
      let schema_url := directus_url ++ oasPath
      let t := tryBody w.net w.fsError w.schemaFile
      let finish : Bool × List String :=
        match t.res with
        | Except.ok b => (b, t.lines)
        | Except.error (PyError.httpError code reason) =>
            (false, t.lines ++ httpErrorLine code reason ::
              (if code = 401 then authGuidance
               else if code = 403 then permGuidance else []))
        | Except.error (PyError.urlError reason) =>
            (false, t.lines ++ connErrorLine reason :: connGuidance)
        | Except.error (PyError.pyExc name msg) =>
            (false, t.lines ++ [unexpectedLine name msg])
      { success := finish.1
      , networkCalled := true
      , requestUrl := some schema_url
      , output := fetchingLine schema_url :: finish.2
      , schemaFile := t.file
      , openedForWrite := t.openedForWrite
      , extracted := t.extracted }

/-- The observable result of the whole process. -/
structure MainResult where
  exitCode : Nat
  output : List String
  schemaFile : Option String

/-- The `__main__` block (lines 135..145): opening banner, the run,
closing banner, and `sys.exit(0 if success else 1)`. -/
def pyMain (w : World) : MainResult :=
  let r := load_schema w
  { exitCode := if r.success then 0 else 1
  , output := [sep60, "🚀 Directus Schema Loader", sep60, ""] ++ r.output ++ ["", sep60]
  , schemaFile := r.schemaFile }

/-- Whether the pattern occurs at the start of the character list. -/
def startsWithChars : List Char → List Char → Bool
  | [], _ => true
  | _ :: _, [] => false
  | c :: cs, d :: ds => c == d && startsWithChars cs ds

/-- Whether the pattern occurs anywhere inside the character list. -/
def hasSubChars : List Char → List Char → Bool
  | hay, pat =>
    startsWithChars pat hay ||
      (match hay with
       | [] => false
       | _ :: t => hasSubChars t pat)

/-- Whether `pat` occurs as a contiguous substring of `hay`. -/
def strHasSub (hay pat : String) : Bool := hasSubChars hay.data pat.data

/-- The body of the spec's round-trip test:
`"components": \x7b"schemas": \x7b"A": \x7b"type": "object"\x7d\x7d\x7d`. -/
def docA : Json :=
  Json.obj [("components", Json.obj [("schemas",
    Json.obj [("A", Json.obj [("type", Json.str "object")])])])]

/-- The fields of the schema mapping inside `docA`. -/
def fieldsA : List (String × Json) := [("A", Json.obj [("type", Json.str "object")])]

/-- A parsed document whose `components` value is a string, so that
`.get("schemas", ..)` raises `AttributeError`. -/
def docBadComponents : Json := Json.obj [("components", Json.str "x")]

/-- A world delivering a 200 response whose `components` value is not
a dict. -/
def worldBadComponents : World :=
  ⟨none, some "t", NetEvent.response 200 "OK" (Body.jsonDoc docBadComponents), none, none⟩

/-- A world delivering a 200 response with an empty `schemas` mapping,
with a pre-existing output file. -/
def worldEmptySchemas : World :=
  ⟨none, some "t",
   NetEvent.response 200 "OK"
     (Body.jsonDoc (Json.obj [("components", Json.obj [("schemas", Json.obj [])])])),
   none, some "prior"⟩

/-- A world delivering a 200 response whose `schemas` value is the
number 5: truthy, so it is written to the file, after which
`len(schema_data)` raises `TypeError`. -/
def worldNumSchemas : World :=
  ⟨none, some "t",
   NetEvent.response 200 "OK"
     (Body.jsonDoc (Json.obj [("components", Json.obj [("schemas", Json.num 5)])])),
   none, none⟩

/-- A world with the token present and a successful round-trip
response carrying `docA`, with a pre-existing output file. -/
def worldRoundTrip : World :=
  ⟨none, some "t", NetEvent.response 200 "OK" (Body.jsonDoc docA), none, some "old"⟩

/-- A world with no token at all. -/
def worldNoToken : World :=
  ⟨none, none, NetEvent.urlError "unused", none, some "keep"⟩

/-- A world whose request is answered with 401 Unauthorized. -/
def worldAuthFail : World :=
  ⟨none, some "t", NetEvent.response 401 "Unauthorized" (Body.invalid "e"), none, some "keep"⟩

/-- A world whose request is answered with 201 Created, a 2xx status
other than 200. -/
def worldCreated : World :=
  ⟨none, some "t", NetEvent.response 201 "Created" (Body.invalid "e"), none, none⟩

/-- A world delivering a 200 response whose body is the empty JSON
object, so both navigation keys are missing. -/
def worldEmptyDoc : World :=
  ⟨none, some "t", NetEvent.response 200 "OK" (Body.jsonDoc (Json.obj [])), none, some "p"⟩

/-- Structural facts about the `try` block: if the output file was never
opened for writing its content is the prior one; the file is opened only
after a truthy value was extracted; and a normal `True` return also
requires a truthy extracted value. -/
theorem tryBody_spec (net : NetEvent) (fsE : Option FsFailure) (prior : Option String) :
    ((tryBody net fsE prior).openedForWrite = false → (tryBody net fsE prior).file = prior) ∧
    ((tryBody net fsE prior).openedForWrite = true →
      ∃ j, (tryBody net fsE prior).extracted = some j ∧ truthy j = true) ∧
    ((tryBody net fsE prior).res = Except.ok true →
      ∃ j, (tryBody net fsE prior).extracted = some j ∧ truthy j = true) := by
  cases net with
  | urlError r => simp [tryBody, urlopen]
  | otherError n m => simp [tryBody, urlopen]
  | response s reason body =>
    by_cases h2 : 200 ≤ s ∧ s < 300
    · by_cases h200 : s = 200
      · cases body with
        | invalid msg => simp [tryBody, urlopen, if_pos h2, if_pos h200]
        | jsonDoc doc =>
          cases hE : extract doc with
          | error e => simp [tryBody, urlopen, if_pos h2, if_pos h200, hE]
          | ok sd =>
            cases htr : truthy sd with
            | false => simp [tryBody, urlopen, if_pos h2, if_pos h200, hE, htr]
            | true =>
              cases fsE with
              | none =>
                cases hL : pyLen sd with
                | error e => simp [tryBody, urlopen, if_pos h2, if_pos h200, hE, htr, hL]
                | ok n => simp [tryBody, urlopen, if_pos h2, if_pos h200, hE, htr, hL]
              | some f => cases f <;> simp [tryBody, urlopen, if_pos h2, if_pos h200, hE, htr]
      · simp [tryBody, urlopen, if_pos h2, if_neg h200]
    · simp [tryBody, urlopen, if_neg h2]

/-- With a non-empty token, the fields of the run result are wired to
the `try` block as the source wires them, and a `True` return of the
function is exactly a normal `True` outcome of the block. -/
theorem load_schema_fields (url : Option String) (tok : String) (net : NetEvent)
    (fsE : Option FsFailure) (prior : Option String) (htok : tok ≠ "") :
    (load_schema ⟨url, some tok, net, fsE, prior⟩).schemaFile = (tryBody net fsE prior).file ∧
    (load_schema ⟨url, some tok, net, fsE, prior⟩).openedForWrite
      = (tryBody net fsE prior).openedForWrite ∧
    (load_schema ⟨url, some tok, net, fsE, prior⟩).extracted = (tryBody net fsE prior).extracted ∧
    ((load_schema ⟨url, some tok, net, fsE, prior⟩).success = true →
      (tryBody net fsE prior).res = Except.ok true) := by
  simp only [load_schema]
  rw [if_neg htok]
  refine ⟨rfl, rfl, rfl, ?_⟩
  cases hres : (tryBody net fsE prior).res with
  | error e => cases e <;> simp [hres]
  | ok b => cases b <;> simp [hres]

/-- The write-commit discipline of a whole run, for every world. -/
theorem run_spec (w : World) :
    ((load_schema w).openedForWrite = false → (load_schema w).schemaFile = w.schemaFile) ∧
    ((load_schema w).openedForWrite = true →
      ∃ j, (load_schema w).extracted = some j ∧ truthy j = true) ∧
    ((load_schema w).success = true →
      ∃ j, (load_schema w).extracted = some j ∧ truthy j = true) := by
  obtain ⟨url, tokOpt, net, fsE, prior⟩ := w
  cases tokOpt with
  | none => simp [load_schema, noTokenResult]
  | some tok =>
    by_cases htok : tok = ""
    · subst htok; simp [load_schema, noTokenResult]
    · obtain ⟨hf, ho, he, hs⟩ := load_schema_fields url tok net fsE prior htok
      obtain ⟨t1, t2, t3⟩ := tryBody_spec net fsE prior
      refine ⟨?_, ?_, ?_⟩
      · intro h; rw [hf]; exact t1 (ho ▸ h)
      · intro h; rw [he]; exact t2 (ho ▸ h)
      · intro h; rw [he]; exact t3 (hs h)

/-- C2: when DIRECTUS_TOKEN is absent or set to the empty string, the
program performs no network call, prints the multi-line guidance on
obtaining and setting the credential, and exits with status 1. -/
theorem c2_missing_credential (url : Option String) (tokOpt : Option String)
    (net : NetEvent) (fsE : Option FsFailure) (prior : Option String)
    (h : tokOpt = none ∨ tokOpt = some "") :
    (load_schema ⟨url, tokOpt, net, fsE, prior⟩).networkCalled = false ∧
    (load_schema ⟨url, tokOpt, net, fsE, prior⟩).output = missingTokenGuidance ∧
    1 < (load_schema ⟨url, tokOpt, net, fsE, prior⟩).output.length ∧
    (pyMain ⟨url, tokOpt, net, fsE, prior⟩).exitCode = 1 := by
  rcases h with h | h <;> subst h <;>
    exact ⟨rfl, rfl, by simp [load_schema, noTokenResult, missingTokenGuidance], rfl⟩

/-- Witness for C2 at a concrete world with no token in the environment. -/
theorem c2_missing_credential_witness :
    (load_schema worldNoToken).networkCalled = false ∧
    (load_schema worldNoToken).output = missingTokenGuidance ∧
    1 < (load_schema worldNoToken).output.length ∧
    (pyMain worldNoToken).exitCode = 1 :=
  c2_missing_credential none none (NetEvent.urlError "unused") none (some "keep") (Or.inl rfl)

/-- C7: a transport-level failure of the network call (`URLError`)
prints the connection error with the connectivity troubleshooting
block, exits with status 1, and leaves the output file unchanged. -/
theorem c7_connection_failure (url : Option String) (tok reason : String)
    (fsE : Option FsFailure) (prior : Option String) (htok : tok ≠ "") :
    (load_schema ⟨url, some tok, NetEvent.urlError reason, fsE, prior⟩).schemaFile = prior ∧
    (load_schema ⟨url, some tok, NetEvent.urlError reason, fsE, prior⟩).output
      = fetchingLine (url.getD defaultBaseUrl ++ oasPath) ::
        connErrorLine reason :: connGuidance ∧
    (pyMain ⟨url, some tok, NetEvent.urlError reason, fsE, prior⟩).exitCode = 1 := by
  refine ⟨?_, ?_, ?_⟩ <;>
    · simp only [load_schema, pyMain]
      rw [if_neg htok]
      simp [tryBody, urlopen]

/-- Witness for C7 at a concrete refused connection. -/
theorem c7_connection_failure_witness :
    (load_schema ⟨none, some "t", NetEvent.urlError "[Errno 111] Connection refused",
        none, some "keep"⟩).schemaFile = some "keep" ∧
    (load_schema ⟨none, some "t", NetEvent.urlError "[Errno 111] Connection refused",
        none, some "keep"⟩).output
      = fetchingLine "https://directus.bounteer.com/server/specs/oas" ::
        connErrorLine "[Errno 111] Connection refused" :: connGuidance ∧
    (pyMain ⟨none, some "t", NetEvent.urlError "[Errno 111] Connection refused",
        none, some "keep"⟩).exitCode = 1 :=
  c7_connection_failure none "t" "[Errno 111] Connection refused" none (some "keep")
    (by decide)

/-- C8 counterexample: a failed run that does commit output.  The body
`\x7b"components": \x7b"schemas": 5\x7d\x7d` is truthy, so the script
writes `5` to `reference/schema.json`, and only then fails (with exit
status 1) because `len(5)` raises `TypeError` in the confirmation
print; the previously absent file now exists with content `5`. -/
theorem c8_counterexample :
    (load_schema worldNumSchemas).success = false ∧
    (pyMain worldNumSchemas).exitCode = 1 ∧
    worldNumSchemas.schemaFile = none ∧
    (load_schema worldNumSchemas).schemaFile = some "5" ∧
    (load_schema worldNumSchemas).output
      = [fetchingLine "https://directus.bounteer.com/server/specs/oas", savedLine,
         unexpectedLine "TypeError" "object of type \x27int\x27 has no len()"] := by
  decide

/-- C8 amended: the output file is opened for writing only after
fetching, parsing, and extraction have fully succeeded with a truthy
extracted value, and a run that never opens the file leaves the prior
content unchanged; a run can still fail after the write. -/
theorem c8_write_commit (w : World) :
    ((load_schema w).openedForWrite = false → (load_schema w).schemaFile = w.schemaFile) ∧
    ((load_schema w).openedForWrite = true →
      ∃ j, (load_schema w).extracted = some j ∧ truthy j = true) :=
  ⟨(run_spec w).1, (run_spec w).2.1⟩

/-- Witness for C8 amended at a concrete failing world that never
opens the output file. -/
theorem c8_write_commit_witness :
    (load_schema worldNoToken).openedForWrite = false ∧
    (load_schema worldNoToken).schemaFile = worldNoToken.schemaFile :=
  ⟨rfl, (c8_write_commit worldNoToken).1 rfl⟩

/-- C9: the process exit status is exactly the boolean outcome of
`load_schema` mapped to 0 on success and 1 on failure, so it is always
0 or 1. -/
theorem c9_exit_status (w : World) :
    ((pyMain w).exitCode = if (load_schema w).success then 0 else 1) ∧
    ((pyMain w).exitCode = 0 ∨ (pyMain w).exitCode = 1) := by
  refine ⟨rfl, ?_⟩
  by_cases h : (load_schema w).success = true
  · exact Or.inl (by simp [pyMain, h])
  · exact Or.inr (by simp [pyMain, Bool.eq_false_iff.mpr h])

/-- C10: when DIRECTUS_URL is set to the empty string the default base
address does not apply and the request targets the relative address
`/server/specs/oas`; when DIRECTUS_URL is unset the default applies;
and, unlike the base address, an empty DIRECTUS_TOKEN is treated like
an absent one (no network call). -/
theorem c10_empty_base_url (net : NetEvent) (fsE : Option FsFailure)
    (prior : Option String) (tok : String) (htok : tok ≠ "") :
    (load_schema ⟨some "", some tok, net, fsE, prior⟩).requestUrl
      = some "/server/specs/oas" ∧
    (load_schema ⟨none, some tok, net, fsE, prior⟩).requestUrl
      = some "https://directus.bounteer.com/server/specs/oas" ∧
    (load_schema ⟨some "", some "", net, fsE, prior⟩).networkCalled = false := by
  refine ⟨?_, ?_, rfl⟩ <;>
    · simp only [load_schema]
      rw [if_neg htok]
      rfl

/-- Witness for C10 at a concrete network event and token. -/
theorem c10_empty_base_url_witness :
    (load_schema ⟨some "", some "t", NetEvent.urlError "u", none, none⟩).requestUrl
      = some "/server/specs/oas" ∧
    (load_schema ⟨none, some "t", NetEvent.urlError "u", none, none⟩).requestUrl
      = some "https://directus.bounteer.com/server/specs/oas" ∧
    (load_schema ⟨some "", some "", NetEvent.urlError "u", none, none⟩).networkCalled
      = false :=
  c10_empty_base_url (NetEvent.urlError "u") none none "t" (by decide)

/-- C1: for every 200 response whose body parses to a document holding
a non-empty object at `components.schemas`, the program overwrites
`reference/schema.json` with exactly that object serialized by the
2-space-indented, non-ASCII-preserving serializer, and exits 0. -/
theorem c1_round_trip (url : Option String) (tok reason : String) (doc : Json)
    (fs : List (String × Json)) (prior : Option String)
    (htok : tok ≠ "") (hx : extract doc = Except.ok (Json.obj fs)) (hne : fs ≠ []) :
    (load_schema ⟨url, some tok,
        NetEvent.response 200 reason (Body.jsonDoc doc), none, prior⟩).schemaFile
      = some (dumps 0 (Json.obj fs)) ∧
    (pyMain ⟨url, some tok,
        NetEvent.response 200 reason (Body.jsonDoc doc), none, prior⟩).exitCode = 0 := by
  have htr : truthy (Json.obj fs) = true := by
    cases fs with
    | nil => exact absurd rfl hne
    | cons a l => rfl
  refine ⟨?_, ?_⟩ <;>
  · simp only [load_schema, pyMain]
    rw [if_neg htok]
    simp [tryBody, urlopen, hx, htr, pyLen]

/-- Witness for C1: the spec's round-trip test body produces exactly
the 2-space-indented serialization of its schema object, over a
pre-existing file, with exit status 0. -/
theorem c1_round_trip_witness :
    extract docA = Except.ok (Json.obj fieldsA) ∧
    (load_schema worldRoundTrip).schemaFile = some (dumps 0 (Json.obj fieldsA)) ∧
    (pyMain worldRoundTrip).exitCode = 0 ∧
    dumps 0 (Json.obj fieldsA)
      = "\x7b\n  \"A\": \x7b\n    \"type\": \"object\"\n  \x7d\n\x7d" :=
  ⟨rfl,
   (c1_round_trip none "t" "OK" docA fieldsA (some "old")
      (by decide) rfl (by simp [fieldsA])).1,
   (c1_round_trip none "t" "OK" docA fieldsA (some "old")
      (by decide) rfl (by simp [fieldsA])).2,
   by decide⟩

/-- C3: a final response with a status outside 200..299 raises
`HTTPError`; the run prints the HTTP error line with the observed code
and reason verbatim, followed by the 401 authentication guidance, the
403 permission guidance, or nothing for other codes; it exits 1 and
leaves the output file unchanged. -/
theorem c3_status_classification (url : Option String) (tok reason : String)
    (body : Body) (fsE : Option FsFailure) (prior : Option String) (s : Nat)
    (htok : tok ≠ "") (hs : ¬(200 ≤ s ∧ s < 300)) :
    (load_schema ⟨url, some tok, NetEvent.response s reason body, fsE, prior⟩).schemaFile
      = prior ∧
    (load_schema ⟨url, some tok, NetEvent.response s reason body, fsE, prior⟩).output
      = fetchingLine (url.getD defaultBaseUrl ++ oasPath) :: httpErrorLine s reason ::
        (if s = 401 then authGuidance else if s = 403 then permGuidance else []) ∧
    (pyMain ⟨url, some tok, NetEvent.response s reason body, fsE, prior⟩).exitCode = 1 := by
  refine ⟨?_, ?_, ?_⟩ <;>
  · simp only [load_schema, pyMain]
    rw [if_neg htok]
    simp [tryBody, urlopen, if_neg hs]

/-- Witness for C3 at a concrete 401 response: the authentication
guidance block follows the verbatim code and reason line. -/
theorem c3_status_classification_witness :
    (load_schema worldAuthFail).schemaFile = some "keep" ∧
    (load_schema worldAuthFail).output
      = fetchingLine "https://directus.bounteer.com/server/specs/oas" ::
        httpErrorLine 401 "Unauthorized" :: authGuidance ∧
    (pyMain worldAuthFail).exitCode = 1 :=
  c3_status_classification none "t" "Unauthorized" (Body.invalid "e") none (some "keep")
    401 (by decide) (by decide)

/-- C4: the fetch succeeds only for status exactly 200; any other
status makes the run fail with exit status 1 and report the observed
code, through the received-status line for a 2xx status and through
the HTTP error line otherwise. -/
theorem c4_only_200_succeeds (url : Option String) (tok reason : String)
    (body : Body) (fsE : Option FsFailure) (prior : Option String) (s : Nat)
    (htok : tok ≠ "") (hs : s ≠ 200) :
    (load_schema ⟨url, some tok, NetEvent.response s reason body, fsE, prior⟩).success
      = false ∧
    (pyMain ⟨url, some tok, NetEvent.response s reason body, fsE, prior⟩).exitCode = 1 ∧
    (if 200 ≤ s ∧ s < 300
     then statusLine s
        ∈ (load_schema ⟨url, some tok, NetEvent.response s reason body, fsE, prior⟩).output
     else httpErrorLine s reason
        ∈ (load_schema ⟨url, some tok, NetEvent.response s reason body, fsE, prior⟩).output) := by
  by_cases h2 : 200 ≤ s ∧ s < 300
  · rw [if_pos h2]
    refine ⟨?_, ?_, ?_⟩ <;>
    · simp only [load_schema, pyMain]
      rw [if_neg htok]
      simp [tryBody, urlopen, if_pos h2, if_neg hs]
  · rw [if_neg h2]
    refine ⟨?_, ?_, ?_⟩ <;>
    · simp only [load_schema, pyMain]
      rw [if_neg htok]
      simp [tryBody, urlopen, if_neg h2]

/-- Witness for C4 at a concrete 201 response: a 2xx status with a
body still fails, reporting the observed code. -/
theorem c4_only_200_succeeds_witness :
    (load_schema worldCreated).success = false ∧
    (pyMain worldCreated).exitCode = 1 ∧
    statusLine 201 ∈ (load_schema worldCreated).output :=
  have h := c4_only_200_succeeds none "t" "Created" (Body.invalid "e") none none 201
    (by decide) (by decide)
  ⟨h.1, h.2.1, h.2.2⟩

/-- C5 counterexample: a successfully parsed document in which the key
`schemas` is missing inside `components` — because the value at
`components` is the string `"x"`, which has no keys at all — does not
yield the empty mapping: `.get` on a string raises `AttributeError`,
so the run fails as an unexpected error, and the EmptySchema line is
never printed. -/
theorem c5_counterexample :
    (load_schema worldBadComponents).success = false ∧
    (load_schema worldBadComponents).output
      = [fetchingLine "https://directus.bounteer.com/server/specs/oas",
         unexpectedLine "AttributeError" "\x27str\x27 object has no attribute \x27get\x27"] ∧
    ((load_schema worldBadComponents).output.contains emptySchemaLine) = false ∧
    (pyMain worldBadComponents).exitCode = 1 := by
  decide

/-- C5 amended: for a parsed document that is a JSON object, a missing
`components` key, or a `components` object missing the `schemas` key,
yields the empty mapping, and the run fails as EmptySchema (not as an
unexpected error); an intermediate value that is present but not an
object instead raises. -/
theorem c5_missing_key_empty_mapping (url : Option String) (tok reason : String)
    (fsE : Option FsFailure) (prior : Option String) (fields : List (String × Json))
    (htok : tok ≠ "")
    (h : fields.lookup "components" = none ∨
         ∃ cfs, fields.lookup "components" = some (Json.obj cfs) ∧
           cfs.lookup "schemas" = none) :
    extract (Json.obj fields) = Except.ok (Json.obj []) ∧
    (load_schema ⟨url, some tok,
        NetEvent.response 200 reason (Body.jsonDoc (Json.obj fields)), fsE, prior⟩).output
      = [fetchingLine (url.getD defaultBaseUrl ++ oasPath), emptySchemaLine] ∧
    (load_schema ⟨url, some tok,
        NetEvent.response 200 reason (Body.jsonDoc (Json.obj fields)), fsE, prior⟩).success
      = false ∧
    (load_schema ⟨url, some tok,
        NetEvent.response 200 reason (Body.jsonDoc (Json.obj fields)), fsE, prior⟩).schemaFile
      = prior := by
  have hx : extract (Json.obj fields) = Except.ok (Json.obj []) := by
    rcases h with h | ⟨cfs, h1, h2⟩
    · simp [extract, dictGet, h, List.lookup]
    · simp [extract, dictGet, h1, h2]
  refine ⟨hx, ?_, ?_, ?_⟩ <;>
  · simp only [load_schema]
    rw [if_neg htok]
    simp [tryBody, urlopen, hx, truthy]

/-- Witness for C5 amended at the empty JSON object document. -/
theorem c5_missing_key_empty_mapping_witness :
    extract (Json.obj []) = Except.ok (Json.obj []) ∧
    (load_schema worldEmptyDoc).output
      = [fetchingLine "https://directus.bounteer.com/server/specs/oas", emptySchemaLine] ∧
    (load_schema worldEmptyDoc).success = false ∧
    (load_schema worldEmptyDoc).schemaFile = some "p" :=
  c5_missing_key_empty_mapping none "t" "OK" none (some "p") [] (by decide) (Or.inl rfl)

/-- C6 counterexample: in the spec's own empty-schema scenario (a 200
response with body `\x7b"components": \x7b"schemas": \x7b\x7d\x7d\x7d`)
the run writes no file and exits 1, but no printed line contains the
claimed message text with its trailing period: the script prints
`❌ ERROR: No schemas found in the OpenAPI specification` without a
period. -/
theorem c6_counterexample :
    (load_schema worldEmptySchemas).schemaFile = some "prior" ∧
    (load_schema worldEmptySchemas).output
      = [fetchingLine "https://directus.bounteer.com/server/specs/oas", emptySchemaLine] ∧
    ((pyMain worldEmptySchemas).output.all
      (fun l => !(strHasSub l "No schemas found in the OpenAPI specification."))) = true ∧
    (pyMain worldEmptySchemas).exitCode = 1 := by
  decide

/-- C6 amended: for every run whose extracted value is falsy (in
particular the empty mapping), the program writes no file, reports the
failure with a line containing "No schemas found in the OpenAPI
specification" (no trailing period, prefixed with an error marker),
and exits 1; and every successful run has a truthy extracted value. -/
theorem c6_empty_schema :
    (∀ (url : Option String) (tok reason : String) (doc sd : Json)
       (fsE : Option FsFailure) (prior : Option String),
       tok ≠ "" → extract doc = Except.ok sd → truthy sd = false →
       (load_schema ⟨url, some tok,
           NetEvent.response 200 reason (Body.jsonDoc doc), fsE, prior⟩).schemaFile = prior ∧
       (load_schema ⟨url, some tok,
           NetEvent.response 200 reason (Body.jsonDoc doc), fsE, prior⟩).output
         = [fetchingLine (url.getD defaultBaseUrl ++ oasPath), emptySchemaLine] ∧
       strHasSub emptySchemaLine "No schemas found in the OpenAPI specification" = true ∧
       (pyMain ⟨url, some tok,
           NetEvent.response 200 reason (Body.jsonDoc doc), fsE, prior⟩).exitCode = 1) ∧
    (∀ w : World, (load_schema w).success = true →
       ∃ j, (load_schema w).extracted = some j ∧ truthy j = true) := by
  constructor
  · intro url tok reason doc sd fsE prior htok hx htr
    refine ⟨?_, ?_, by decide, ?_⟩ <;>
    · simp only [load_schema, pyMain]
      rw [if_neg htok]
      simp [tryBody, urlopen, hx, htr]
  · intro w h
    exact (run_spec w).2.2 h

/-- Witness for C6 amended at the spec's empty-schema scenario. -/
theorem c6_empty_schema_witness :
    (load_schema worldEmptySchemas).schemaFile = some "prior" ∧
    (load_schema worldEmptySchemas).output
      = [fetchingLine "https://directus.bounteer.com/server/specs/oas", emptySchemaLine] ∧
    strHasSub emptySchemaLine "No schemas found in the OpenAPI specification" = true ∧
    (pyMain worldEmptySchemas).exitCode = 1 :=
  c6_empty_schema.1 none "t" "OK"
    (Json.obj [("components", Json.obj [("schemas", Json.obj [])])]) (Json.obj [])
    none (some "prior") (by decide) rfl rfl

end LoadSchema
